import Mathlib

/-!
Verification development for the TuneSwipe backend (Flask + MySQL).

The definitions below are a shallow embedding of the session/swipe/token
subsystem: `src/server/database.py` (the `Database` class) and
`src/server/app.py` (token refresh, batching, and the HTTP endpoints).
Database tables are embedded as Lean lists of rows; SQL statements inline in
the Python sources are embedded as the corresponding list operations;
nondeterministic inputs (UUIDs, the current time, `random` draws, provider
responses) are passed in as explicit parameters.  Timestamps are integers
(seconds); Python floats arising from division are embedded as rationals.
-/

namespace TuneSwipe

/-- A row of the `Swipes` table (see `record_swipe` in `database.py`). -/
structure Swipe where
  swipe_id : String
  session_id : String
  song_id : String
  direction : String
  swipe_order : Nat
  swipe_timestamp : Int
deriving DecidableEq, Repr

/-- A row of the `Songs` table (see `add_song_to_session` in `database.py`). -/
structure Song where
  song_id : String
  spotify_id : String
  title : String
  artist : String
  preview_url : Option String
  album_cover : String
  popularity : Int
deriving DecidableEq, Repr

/-- A row of the `SwipeSessions` table. -/
structure SwipeSession where
  session_id : String
  spotify_id : String
  target_playlist_length : Nat
  session_status : String
  completion_date : Option Int
deriving DecidableEq, Repr

/-- The database state touched by the session/swipe subsystem. -/
structure DB where
  songs : List Song
  sessions : List SwipeSession
  swipes : List Swipe
deriving DecidableEq, Repr

/-- The rows of `Swipes` belonging to one session
(`... FROM Swipes WHERE session_id = %s`). -/
def sessionSwipes (db : DB) (sid : String) : List Swipe :=
  db.swipes.filter (fun sw => sw.session_id = sid)

/-- `SELECT COALESCE(MAX(swipe_order), 0) + 1 FROM Swipes WHERE session_id = %s`
in `record_swipe`: the maximum existing order in the session (0 when the
session has no swipes) plus one. -/
def nextSwipeOrder (db : DB) (sid : String) : Nat :=
  ((sessionSwipes db sid).map Swipe.swipe_order).foldl max 0 + 1

/-- `Database.record_swipe` (`database.py` lines 425-477): computes the next
swipe order for the session, then inserts a `Swipes` row with a fresh UUID
(passed in as `swipe_id`) and the current UTC time, returning the swipe id. -/
def record_swipe (db : DB) (swipe_id sid song_id direction : String) (now : Int) :
    DB × String :=
  let sw : Swipe :=
    { swipe_id := swipe_id, session_id := sid, song_id := song_id,
      direction := direction, swipe_order := nextSwipeOrder db sid,
      swipe_timestamp := now }
  ({ db with swipes := db.swipes ++ [sw] }, swipe_id)

/-- A sequence of `record_swipe` calls against one session; each list entry
carries the fresh swipe UUID, the database song id, the direction and the
call time. -/
def recordSwipes (db : DB) (sid : String)
    (calls : List (String × String × String × Int)) : DB :=
  calls.foldl (fun d c => (record_swipe d c.1 sid c.2.1 c.2.2.1 c.2.2.2).1) db

/-- A database with no rows at all. -/
def emptyDB : DB := { songs := [], sessions := [], swipes := [] }

/-- Concrete two-call example used to instantiate the C1 theorem. -/
def demoCalls : List (String × String × String × Int) :=
  [("swipe-1", "song-a", "RIGHT", 10), ("swipe-2", "song-b", "LEFT", 11)]

/-- `SELECT ... FROM SwipeSessions WHERE session_id = %s` (first row). -/
def findSession (db : DB) (sid : String) : Option SwipeSession :=
  db.sessions.find? (fun s => s.session_id = sid)

/-- `COUNT(CASE WHEN sw.direction = 'RIGHT' THEN 1 END)` over a session's
swipes. -/
def likedCount (db : DB) (sid : String) : Nat :=
  ((sessionSwipes db sid).filter (fun sw => sw.direction = "RIGHT")).length

/-- `COUNT(sw.swipe_id)` over a session's swipes. -/
def totalSwipes (db : DB) (sid : String) : Nat :=
  (sessionSwipes db sid).length

/-- The stats row produced by the aggregation query in `complete_session`
(`SwipeSessions LEFT JOIN Swipes ... GROUP BY ss.session_id`). -/
structure SessionStats where
  target_playlist_length : Nat
  liked_count : Nat
  total_swipes : Nat
deriving DecidableEq, Repr

/-- The aggregation query of `complete_session` evaluated on one session. -/
def sessionStats (db : DB) (s : SwipeSession) : SessionStats :=
  { target_playlist_length := s.target_playlist_length,
    liked_count := likedCount db s.session_id,
    total_swipes := totalSwipes db s.session_id }

/-- Return value of `Database.complete_session`: either
`{'success': True, 'stats': ...}` or `{'success': False, 'error': ...}`. -/
inductive CompleteResult where
  | ok (stats : SessionStats)
  | err (msg : String)
deriving DecidableEq, Repr

/-- `Database.complete_session` (`database.py` lines 178-253): looks the
session up (error `'Session not found'` when absent), computes the stats row,
and — only when the stored status is not already `'COMPLETED'` — updates the
row to status `'COMPLETED'` with `completion_date` set to the current time.
Stats are returned in every successful case. -/
def complete_session (db : DB) (sid : String) (now : Int) : DB × CompleteResult :=
  match findSession db sid with
  | none => (db, CompleteResult.err "Session not found")
  | some s =>
    let stats := sessionStats db s
    if s.session_status = "COMPLETED" then
      (db, CompleteResult.ok stats)
    else
      ({ db with
          sessions := db.sessions.map fun t =>
            if t.session_id = sid then
              { t with session_status := "COMPLETED", completion_date := some now }
            else t },
        CompleteResult.ok stats)

/-- Concrete one-session database used to instantiate the C2 theorem. -/
def demoSessionDB : DB :=
  { songs := [],
    sessions := [{ session_id := "sess", spotify_id := "user-1",
                   target_playlist_length := 5, session_status := "ACTIVE",
                   completion_date := none }],
    swipes := [{ swipe_id := "swipe-1", session_id := "sess", song_id := "song-a",
                 direction := "RIGHT", swipe_order := 1, swipe_timestamp := 10 }] }

/-- The parts of a Spotify track payload read by `add_song_to_session`.
`name`, `popularity` and `preview_url` may be absent (`Option`); `artists`
is the list of artist objects, each of which may itself lack a `name` key;
`album_images` is the `album.images` list, each image possibly lacking a
`url` key. -/
structure TrackData where
  name : Option String
  artists : List (Option String)
  album_images : List (Option String)
  preview_url : Option String
  popularity : Option Int
deriving DecidableEq, Repr

/-- Artist extraction in `add_song_to_session`: `'Unknown Artist'` unless the
payload has a non-empty `artists` list, in which case the first artist's
`name` with `'Unknown Artist'` as the `.get` default. -/
def extractArtist (t : TrackData) : String :=
  match t.artists with
  | [] => "Unknown Artist"
  | a :: _ => a.getD "Unknown Artist"

/-- Album-image extraction in `add_song_to_session`: `''` unless
`album.images` is non-empty, in which case the first image's `url` with `''`
as the `.get` default. -/
def extractAlbumImage (t : TrackData) : String :=
  match t.album_images with
  | [] => ""
  | i :: _ => i.getD ""

/-- `Database.add_song_to_session` (`database.py` lines 357-423): looks the
song up by `spotify_id`; when present, returns the stored `song_id`
unchanged; when absent, inserts a `Songs` row under a fresh UUID (passed in
as `freshId`), filling missing optional fields with the sentinels
`'Unknown Title'`, `'Unknown Artist'`, `''` and popularity `0`, and returns
the fresh id.  (`session_id` is accepted but, as in the source, unused.) -/
def add_song_to_session (db : DB) (session_id freshId spotify_id : String)
    (track_data : TrackData) : DB × Option String :=
  match db.songs.find? (fun s => s.spotify_id = spotify_id) with
  | some s => (db, some s.song_id)
  | none =>
    let song : Song :=
      { song_id := freshId, spotify_id := spotify_id,
        title := track_data.name.getD "Unknown Title",
        artist := extractArtist track_data,
        preview_url := track_data.preview_url,
        album_cover := extractAlbumImage track_data,
        popularity := track_data.popularity.getD 0 }
    ({ db with songs := db.songs ++ [song] }, some freshId)

/-- A track payload with every optional field missing. -/
def bareTrack : TrackData :=
  { name := none, artists := [], album_images := [], preview_url := none,
    popularity := none }

/-- The progress record returned by `get_session_progress`: the row fields
plus the two metrics computed in Python. -/
structure SessionProgress where
  target_playlist_length : Nat
  liked_count : Nat
  total_swipes : Nat
  progress_percentage : ℚ
  is_complete : Bool
deriving DecidableEq, Repr

/-- Modelled from the spec: `sql/get_session_progress.sql` is not among the
sources (only its caller `Database.get_session_progress` is).  Per the spec
(§4.3 "progress": "returns liked count, total swipe count, target length"),
the query returns, for an existing session, its target length together with
the session's liked (RIGHT) swipe count and total swipe count, and no row
for an unknown session id. -/
def sessionProgressRow (db : DB) (sid : String) : Option (Nat × Nat × Nat) :=
  (findSession db sid).map fun s =>
    (s.target_playlist_length, likedCount db sid, totalSwipes db sid)

/-- `Database.get_session_progress` (`database.py` lines 289-320): fetches
the progress row and computes, in Python,
`progress_percentage = liked_count / target_playlist_length * 100` and
`is_complete = liked_count >= target_playlist_length`.  A target of `0`
makes the division raise `ZeroDivisionError`, which the blanket `except`
swallows, so the function returns `None` in that case. -/
def get_session_progress (db : DB) (sid : String) : Option SessionProgress :=
  match sessionProgressRow db sid with
  | none => none
  | some (target, liked, total) =>
    if target = 0 then none
    else
      some { target_playlist_length := target, liked_count := liked,
             total_swipes := total,
             progress_percentage := ((liked : ℚ) / (target : ℚ)) * 100,
             is_complete := decide (target ≤ liked) }

/-- Response body shapes of `GET /api/session_progress/<session_id>`. -/
inductive ProgressResponse where
  | ok (p : SessionProgress)
  | notFound (msg : String)
deriving DecidableEq, Repr

/-- The `GET /api/session_progress/<session_id>` endpoint (`app.py` lines
714-752): 404 with message `'Session not found'` when
`Database.get_session_progress` returned a falsy value, 200 with the
progress data otherwise. -/
def api_session_progress (db : DB) (sid : String) : Nat × ProgressResponse :=
  match get_session_progress db sid with
  | none => (404, ProgressResponse.notFound "Session not found")
  | some p => (200, ProgressResponse.ok p)

/-- A database holding one session with target length 2 and three RIGHT
swipes (likes exceed the target). -/
def overshootDB : DB :=
  { songs := [],
    sessions := [{ session_id := "sess", spotify_id := "user-1",
                   target_playlist_length := 2, session_status := "ACTIVE",
                   completion_date := none }],
    swipes :=
      [{ swipe_id := "w1", session_id := "sess", song_id := "a",
         direction := "RIGHT", swipe_order := 1, swipe_timestamp := 1 },
       { swipe_id := "w2", session_id := "sess", song_id := "b",
         direction := "RIGHT", swipe_order := 2, swipe_timestamp := 2 },
       { swipe_id := "w3", session_id := "sess", song_id := "c",
         direction := "RIGHT", swipe_order := 3, swipe_timestamp := 3 }] }

/-- A database holding one session whose target length is 0. -/
def zeroTargetDB : DB :=
  { songs := [],
    sessions := [{ session_id := "sess", spotify_id := "user-1",
                   target_playlist_length := 0, session_status := "ACTIVE",
                   completion_date := none }],
    swipes := [] }

/-- The batches produced by the loop in `add_tracks_to_playlist`
(`for i in range(0, len(track_uris), 100): batch = track_uris[i:i+100]`):
successive slices of at most 100 identifiers. -/
def chunk100 (l : List String) : List (List String) :=
  if h : l = [] then []
  else l.take 100 :: chunk100 (l.drop 100)
termination_by l.length
decreasing_by
  rw [List.length_drop]
  have := List.length_pos.mpr h
  omega

/-- Observable outcome of the `add_tracks_to_playlist` happy path: HTTP
status, the batches submitted to the provider (one `sp.playlist_add_items`
call per batch, in order), and the `added` count reported in the body
(absent for the empty-list short circuit). -/
structure AddTracksResult where
  status : Nat
  providerCalls : List (List String)
  added : Option Nat
deriving DecidableEq, Repr

/-- `add_tracks_to_playlist` (`app.py` lines 988-1016) with user lookup,
token refresh and provider calls succeeding: an empty `track_uris` list
returns success immediately with no provider call; otherwise the uris are
submitted in slices of 100 and the response reports `len(track_uris)`. -/
def add_tracks_to_playlist (track_uris : List String) : AddTracksResult :=
  if track_uris = [] then { status := 200, providerCalls := [], added := none }
  else { status := 200, providerCalls := chunk100 track_uris,
         added := some track_uris.length }

/-- The `Users` columns read and written by the token manager; `Option`
models SQL `NULL` (falsy in the Python checks). -/
structure UserData where
  spotify_id : String
  access_token : Option String
  refresh_token : Option String
  token_expires_at : Option Int
deriving DecidableEq, Repr

/-- The fields of a provider token-refresh response (`token_info`) used by
`get_fresh_spotify_token`; `refresh_token` may be absent, `expires_in` is a
lifetime in seconds. -/
structure TokenInfo where
  access_token : String
  refresh_token : Option String
  expires_in : Int
deriving DecidableEq, Repr

/-- Outcome of `get_fresh_spotify_token`: the returned access token, or the
raised `Exception` message. -/
inductive TokenOutcome where
  | token (t : Option String)
  | authRequired (msg : String)
deriving DecidableEq, Repr

/-- The validity test of `get_fresh_spotify_token`:
`user_data['token_expires_at'] and user_data['token_expires_at'] >
datetime.utcnow() + timedelta(minutes=5)` — a stored expiry (`NULL` is
falsy) lying strictly more than 300 seconds after `now`. -/
def tokenStillValid (u : UserData) (now : Int) : Bool :=
  match u.token_expires_at with
  | some exp => now + 300 < exp
  | none => false

/-- `get_fresh_spotify_token` (`app.py` lines 87-135).  The provider's
`refresh_access_token` call is passed in as `refresh : Except String
TokenInfo`, an `Except.error` carrying the provider's own error text.
Returns the updated `Users` rows, the outcome, and the number of provider
refresh calls made.  When the stored token is still valid the stored access
token is returned with no call and no update; otherwise a missing refresh
token raises, and a failed refresh call raises, both caught by the blanket
`except` and re-raised as the fixed generic message; a successful refresh
persists the new tokens (keeping the old refresh token when the provider
issued none) with expiry `now + expires_in`. -/
def get_fresh_spotify_token (users : List UserData) (u : UserData) (now : Int)
    (refresh : Except String TokenInfo) :
    List UserData × TokenOutcome × Nat :=
  if tokenStillValid u now then (users, TokenOutcome.token u.access_token, 0)
  else
    match u.refresh_token with
    | none =>
      (users,
       TokenOutcome.authRequired "Authentication required. Please sign in again.", 0)
    | some rt =>
      match refresh with
      | Except.error _ =>
        (users,
         TokenOutcome.authRequired "Authentication required. Please sign in again.", 1)
      | Except.ok ti =>
        (users.map fun v =>
            if v.spotify_id = u.spotify_id then
              { v with access_token := some ti.access_token,
                       refresh_token := some (ti.refresh_token.getD rt),
                       token_expires_at := some (now + ti.expires_in) }
            else v,
         TokenOutcome.token (some ti.access_token), 1)

/-- A user row whose token has no stored expiry and no refresh token. -/
def bareUser : UserData :=
  { spotify_id := "user-1", access_token := some "tok",
    refresh_token := none, token_expires_at := none }

/-- A user row whose token is valid far into the future. -/
def freshUser : UserData :=
  { spotify_id := "user-1", access_token := some "tok",
    refresh_token := some "ref", token_expires_at := some 10000 }

/-- The possible results of Python's `random.randint(a, b)`: both endpoints
are included (`randint` is inclusive on both ends). -/
def randintRange (a b n : Nat) : Prop := a ≤ n ∧ n ≤ b

instance (a b n : Nat) : Decidable (randintRange a b n) := by
  unfold randintRange
  infer_instance

/-- The offset computation of `get_song` (`app.py` lines 371-375): with the
uniform draw `r = random.random()`, the offset is `random.randint(0, 200)`
when `r < 0.65` and `random.randint(200, 400)` otherwise; the two `randint`
results are passed in as `lowPick` and `highPick`. -/
def get_song_offset (r : ℚ) (lowPick highPick : Nat) : Nat :=
  if r < 65 / 100 then lowPick else highPick

/-- The `song_data` object of a `POST /api/swipe` body: the endpoint indexes
`song_data['spotify_id']` (possibly absent) and passes the rest to
`add_song_to_session`. -/
structure SongDataPayload where
  spotify_id : Option String
  track : TrackData
deriving DecidableEq, Repr

/-- The JSON body of `POST /api/swipe`; each required key may be absent. -/
structure SwipeReqBody where
  session_id : Option String
  song_data : Option SongDataPayload
  direction : Option String
deriving DecidableEq, Repr

/-- The `POST /api/swipe` endpoint (`app.py` lines 507-556): `data[...]`
indexing raises `KeyError` for a missing key, and every exception lands in
the blanket handler, which answers HTTP 500 — the route has no 400
validation path.  On the happy path the song is upserted and the swipe
recorded.  Returns the updated database and the HTTP status. -/
def api_swipe (db : DB) (freshSong freshSwipe : String) (now : Int)
    (body : SwipeReqBody) : DB × Nat :=
  match body.session_id, body.song_data, body.direction with
  | some sid, some sd, some dir =>
    match sd.spotify_id with
    | none => (db, 500)
    | some spid =>
      let p := add_song_to_session db sid freshSong spid sd.track
      match p.2 with
      | none => (p.1, 500)
      | some songId => ((record_swipe p.1 freshSwipe sid songId dir now).1, 200)
  | _, _, _ => (db, 500)

/-- Python truthiness of an optional string: `None` and `''` are falsy. -/
def strTruthy : Option String → Bool
  | none => false
  | some s => !(s == "")

/-- The `POST /api/swipe_sessions` endpoint (`app.py` lines 558-628):
`data.get('spotify_id')` followed by an explicit falsy check answering HTTP
400 with `'Spotify ID is required'`; otherwise a `SwipeSessions` row is
inserted (target defaulting to 20) and HTTP 200 returned.  The INSERT names
no `session_status` column; `'ACTIVE'` is the schema default per the spec
(the schema SQL file is not among the sources). -/
def api_swipe_sessions_post (db : DB) (freshSession : String) (now : Int)
    (spotify_id : Option String) (target : Option Nat) : DB × Nat :=
  if strTruthy spotify_id then
    ({ db with
        sessions := db.sessions ++
          [{ session_id := freshSession, spotify_id := spotify_id.getD "",
             target_playlist_length := target.getD 20,
             session_status := "ACTIVE", completion_date := none }] }, 200)
  else (db, 400)

theorem sessionSwipes_insert (db : DB) (sw : Swipe) (sid : String) :
    sessionSwipes { db with swipes := db.swipes ++ [sw] } sid =
      sessionSwipes db sid ++ if sw.session_id = sid then [sw] else [] := by
  by_cases h : sw.session_id = sid <;>
    simp [sessionSwipes, List.filter_append, h]

theorem foldl_max_range_one (k : Nat) : (List.range' 1 k).foldl max 0 = k := by
  induction k with
  | zero => rfl
  | succ n ih =>
    rw [List.range'_concat, List.foldl_append, ih]
    simp [Nat.max_def]
    omega

theorem recordSwipes_orders (db : DB) (sid : String)
    (calls : List (String × String × String × Int)) (k : Nat)
    (h : (sessionSwipes db sid).map Swipe.swipe_order = List.range' 1 k) :
    (sessionSwipes (recordSwipes db sid calls) sid).map Swipe.swipe_order
      = List.range' 1 (k + calls.length) := by
  induction calls generalizing db k with
  | nil => simpa [recordSwipes] using h
  | cons c rest ih =>
    have hnext : nextSwipeOrder db sid = k + 1 := by
      unfold nextSwipeOrder
      rw [h, foldl_max_range_one]
    have hstep :
        (sessionSwipes (record_swipe db c.1 sid c.2.1 c.2.2.1 c.2.2.2).1 sid).map
            Swipe.swipe_order = List.range' 1 (k + 1) := by
      rw [record_swipe]
      rw [sessionSwipes_insert]
      simp [h, hnext, List.range'_concat]
      omega
    have hrest := ih _ _ hstep
    simp only [recordSwipes, List.foldl_cons] at hrest ⊢
    rw [hrest]
    congr 1
    simp
    omega

/-- **C1.** For every session, the swipe order values produced by a sequence of
`record_swipe` calls on an initially swipe-free session are exactly
`[1, 2, ..., n]` (`List.range' 1 n`): strictly increasing, starting at 1,
each new swipe getting the maximum existing order in the session plus one. -/
theorem record_swipe_orders_strictly_increasing (db : DB) (sid : String)
    (calls : List (String × String × String × Int))
    (h : sessionSwipes db sid = []) :
    (sessionSwipes (recordSwipes db sid calls) sid).map Swipe.swipe_order
        = List.range' 1 calls.length
      ∧ List.Chain' (· < ·)
          ((sessionSwipes (recordSwipes db sid calls) sid).map Swipe.swipe_order)
      ∧ (calls ≠ [] →
          ((sessionSwipes (recordSwipes db sid calls) sid).map
              Swipe.swipe_order).head? = some 1) := by
  have horders := recordSwipes_orders db sid calls 0 (by simp [h])
  simp only [Nat.zero_add] at horders
  refine ⟨horders, ?_, ?_⟩
  · rw [horders]
    exact (List.pairwise_lt_range' 1 calls.length).chain'
  · intro hne
    rw [horders]
    obtain ⟨m, hm⟩ : ∃ m, calls.length = m + 1 :=
      ⟨calls.length - 1, by
        have := List.length_pos.mpr hne
        omega⟩
    rw [hm, List.range'_succ]
    rfl

/-- Witness for C1 at a concrete empty database and two concrete calls. -/
theorem record_swipe_orders_strictly_increasing_witness :
    (sessionSwipes (recordSwipes emptyDB "sess" demoCalls) "sess").map
        Swipe.swipe_order = List.range' 1 demoCalls.length
      ∧ List.Chain' (· < ·)
          ((sessionSwipes (recordSwipes emptyDB "sess" demoCalls) "sess").map
            Swipe.swipe_order)
      ∧ (demoCalls ≠ [] →
          ((sessionSwipes (recordSwipes emptyDB "sess" demoCalls) "sess").map
              Swipe.swipe_order).head? = some 1) :=
  record_swipe_orders_strictly_increasing emptyDB "sess" demoCalls rfl

theorem findSession_map_complete (db : DB) (sid : String) (now : Int)
    (s : SwipeSession) (h : findSession db sid = some s) :
    findSession
        { db with
          sessions := db.sessions.map fun t =>
            if t.session_id = sid then
              { t with session_status := "COMPLETED", completion_date := some now }
            else t } sid
      = some { s with session_status := "COMPLETED", completion_date := some now } := by
  have hs : s.session_id = sid := by
    have := List.find?_some h
    simpa using this
  unfold findSession at h ⊢
  rw [List.find?_map]
  have hcomp :
      ((fun t : SwipeSession => decide (t.session_id = sid)) ∘
        fun t : SwipeSession =>
          if t.session_id = sid then
            { t with session_status := "COMPLETED", completion_date := some now }
          else t)
        = fun t : SwipeSession => decide (t.session_id = sid) := by
    funext t
    by_cases ht : t.session_id = sid <;> simp [ht]
  simp only [hcomp, h]
  simp [hs]

/-- **C2.** `complete_session` is idempotent: when the session exists, the
first call succeeds with a stats row, and a second call returns exactly the
same result while leaving the database state produced by the first call
untouched (in particular `session_status` stays `'COMPLETED'` and
`completion_date` is not stamped a second time, even at a later time `t₂`). -/
theorem complete_session_idempotent (db : DB) (sid : String) (t₁ t₂ : Int)
    (s : SwipeSession) (h : findSession db sid = some s) :
    (∃ stats, (complete_session db sid t₁).2 = CompleteResult.ok stats)
      ∧ (complete_session (complete_session db sid t₁).1 sid t₂).2
          = (complete_session db sid t₁).2
      ∧ (complete_session (complete_session db sid t₁).1 sid t₂).1
          = (complete_session db sid t₁).1
      ∧ ∀ s', findSession (complete_session db sid t₁).1 sid = some s' →
          s'.session_status = "COMPLETED" := by
  by_cases hc : s.session_status = "COMPLETED"
  · have h1 : complete_session db sid t₁ = (db, CompleteResult.ok (sessionStats db s)) := by
      unfold complete_session
      rw [h]
      simp [hc]
    have h2 : complete_session db sid t₂ = (db, CompleteResult.ok (sessionStats db s)) := by
      unfold complete_session
      rw [h]
      simp [hc]
    refine ⟨⟨sessionStats db s, by rw [h1]⟩, ?_, ?_, ?_⟩
    · rw [h1]
      simp only
      rw [h2]
    · rw [h1]
      simp only
      rw [h2]
    · intro s' hs'
      rw [h1] at hs'
      simp only at hs'
      rw [h] at hs'
      cases hs'
      exact hc
  · set db₁ : DB :=
      { db with
        sessions := db.sessions.map fun t =>
          if t.session_id = sid then
            { t with session_status := "COMPLETED", completion_date := some t₁ }
          else t } with hdb₁
    have h1 : complete_session db sid t₁ = (db₁, CompleteResult.ok (sessionStats db s)) := by
      unfold complete_session
      rw [h]
      simp [hc, hdb₁]
    have hfind : findSession db₁ sid
        = some { s with session_status := "COMPLETED", completion_date := some t₁ } :=
      findSession_map_complete db sid t₁ s h
    have hstats :
        sessionStats db₁ { s with session_status := "COMPLETED", completion_date := some t₁ }
          = sessionStats db s := by
      simp [sessionStats, likedCount, totalSwipes, sessionSwipes, hdb₁]
    have h2 : complete_session db₁ sid t₂
        = (db₁, CompleteResult.ok (sessionStats db s)) := by
      unfold complete_session
      rw [hfind]
      simp [hstats]
    refine ⟨⟨sessionStats db s, by rw [h1]⟩, ?_, ?_, ?_⟩
    · rw [h1, h2]
    · rw [h1, h2]
    · intro s' hs'
      rw [h1] at hs'
      simp only at hs'
      rw [hfind] at hs'
      cases hs'
      rfl

/-- Witness for C2 at a concrete database holding one active session with one
recorded swipe. -/
theorem complete_session_idempotent_witness :
    (∃ stats, (complete_session demoSessionDB "sess" 100).2 = CompleteResult.ok stats)
      ∧ (complete_session (complete_session demoSessionDB "sess" 100).1 "sess" 200).2
          = (complete_session demoSessionDB "sess" 100).2
      ∧ (complete_session (complete_session demoSessionDB "sess" 100).1 "sess" 200).1
          = (complete_session demoSessionDB "sess" 100).1
      ∧ ∀ s', findSession (complete_session demoSessionDB "sess" 100).1 "sess" = some s' →
          s'.session_status = "COMPLETED" :=
  complete_session_idempotent demoSessionDB "sess" 100 200
    { session_id := "sess", spotify_id := "user-1", target_playlist_length := 5,
      session_status := "ACTIVE", completion_date := none } rfl

/-- **C3.** `add_song_to_session` is an idempotent upsert keyed by
`spotify_id`: a second call with the same `spotify_id` (with any session id,
fresh UUID and payload) returns the same song id and does not change the
database again; the first call always returns a song id; and any row the
first call inserts carries the requested `spotify_id`, with the sentinel
`'Unknown Artist'` when the payload has no artists. -/
theorem add_song_to_session_idempotent (db : DB) (sid₁ sid₂ f₁ f₂ spid : String)
    (t₁ t₂ : TrackData) :
    (add_song_to_session (add_song_to_session db sid₁ f₁ spid t₁).1 sid₂ f₂ spid t₂).2
        = (add_song_to_session db sid₁ f₁ spid t₁).2
      ∧ (add_song_to_session (add_song_to_session db sid₁ f₁ spid t₁).1 sid₂ f₂ spid t₂).1
        = (add_song_to_session db sid₁ f₁ spid t₁).1
      ∧ ((add_song_to_session db sid₁ f₁ spid t₁).2).isSome = true
      ∧ ∀ s ∈ (add_song_to_session db sid₁ f₁ spid t₁).1.songs, s ∉ db.songs →
          s.spotify_id = spid ∧ (t₁.artists = [] → s.artist = "Unknown Artist") := by
  cases hfind : db.songs.find? (fun s => s.spotify_id = spid) with
  | some s =>
    have h1 : add_song_to_session db sid₁ f₁ spid t₁ = (db, some s.song_id) := by
      unfold add_song_to_session
      rw [hfind]
    rw [h1]
    have h2 : add_song_to_session db sid₂ f₂ spid t₂ = (db, some s.song_id) := by
      unfold add_song_to_session
      rw [hfind]
    refine ⟨by rw [h2], by rw [h2], rfl, ?_⟩
    intro s' hs' habs
    exact absurd hs' habs
  | none =>
    have h1 : add_song_to_session db sid₁ f₁ spid t₁
        = ({ db with songs := db.songs ++
              [{ song_id := f₁, spotify_id := spid,
                 title := t₁.name.getD "Unknown Title",
                 artist := extractArtist t₁,
                 preview_url := t₁.preview_url,
                 album_cover := extractAlbumImage t₁,
                 popularity := t₁.popularity.getD 0 }] }, some f₁) := by
      unfold add_song_to_session
      rw [hfind]
    rw [h1]
    have h2 : (db.songs ++
        [{ song_id := f₁, spotify_id := spid,
           title := t₁.name.getD "Unknown Title",
           artist := extractArtist t₁,
           preview_url := t₁.preview_url,
           album_cover := extractAlbumImage t₁,
           popularity := t₁.popularity.getD 0 : Song }]).find?
          (fun s => s.spotify_id = spid)
        = some { song_id := f₁, spotify_id := spid,
                 title := t₁.name.getD "Unknown Title",
                 artist := extractArtist t₁,
                 preview_url := t₁.preview_url,
                 album_cover := extractAlbumImage t₁,
                 popularity := t₁.popularity.getD 0 } := by
      rw [List.find?_append, hfind]
      simp
    refine ⟨?_, ?_, rfl, ?_⟩
    · unfold add_song_to_session
      simp only
      rw [h2]
    · unfold add_song_to_session
      simp only
      rw [h2]
    · intro s' hs' habs
      simp only [List.mem_append, List.mem_singleton] at hs'
      rcases hs' with hs' | hs'
      · exact absurd hs' habs
      · subst hs'
        refine ⟨rfl, fun hart => ?_⟩
        simp only [extractArtist, hart]

/-- Witness for C3 at a concrete empty database and a payload with every
optional field missing. -/
theorem add_song_to_session_idempotent_witness :
    (add_song_to_session (add_song_to_session emptyDB "sess" "id-1" "sp-1" bareTrack).1
          "sess" "id-2" "sp-1" bareTrack).2
        = (add_song_to_session emptyDB "sess" "id-1" "sp-1" bareTrack).2
      ∧ (add_song_to_session (add_song_to_session emptyDB "sess" "id-1" "sp-1" bareTrack).1
          "sess" "id-2" "sp-1" bareTrack).1
        = (add_song_to_session emptyDB "sess" "id-1" "sp-1" bareTrack).1
      ∧ ((add_song_to_session emptyDB "sess" "id-1" "sp-1" bareTrack).2).isSome = true
      ∧ ∀ s ∈ (add_song_to_session emptyDB "sess" "id-1" "sp-1" bareTrack).1.songs,
          s ∉ emptyDB.songs →
          s.spotify_id = "sp-1" ∧ (bareTrack.artists = [] → s.artist = "Unknown Artist") :=
  add_song_to_session_idempotent emptyDB "sess" "sess" "id-1" "id-2" "sp-1"
    bareTrack bareTrack

/-- **C4.** For every existing session with a non-zero target,
`get_session_progress` returns a progress record whose percentage is exactly
`liked_count / target_playlist_length * 100` (as an exact rational, with no
cap: strictly above 100 whenever likes exceed the target) and whose
`is_complete` flag is true exactly when `liked_count ≥ target`. -/
theorem get_session_progress_formula (db : DB) (sid : String) (s : SwipeSession)
    (hfind : findSession db sid = some s)
    (htarget : s.target_playlist_length ≠ 0) :
    ∃ p, get_session_progress db sid = some p
      ∧ p.liked_count = likedCount db sid
      ∧ p.target_playlist_length = s.target_playlist_length
      ∧ p.progress_percentage
          = ((likedCount db sid : ℚ) / (s.target_playlist_length : ℚ)) * 100
      ∧ (p.is_complete = true ↔ s.target_playlist_length ≤ likedCount db sid)
      ∧ (s.target_playlist_length < likedCount db sid →
          100 < p.progress_percentage) := by
  have hsome : get_session_progress db sid
      = some { target_playlist_length := s.target_playlist_length,
               liked_count := likedCount db sid,
               total_swipes := totalSwipes db sid,
               progress_percentage :=
                 ((likedCount db sid : ℚ) / (s.target_playlist_length : ℚ)) * 100,
               is_complete := decide (s.target_playlist_length ≤ likedCount db sid) } := by
    unfold get_session_progress sessionProgressRow
    rw [hfind]
    simp [htarget]
  refine ⟨_, hsome, rfl, rfl, rfl, ?_, ?_⟩
  · simp
  · intro hover
    have ht : (0 : ℚ) < (s.target_playlist_length : ℚ) := by
      exact_mod_cast Nat.pos_of_ne_zero htarget
    have hlt : (s.target_playlist_length : ℚ) < (likedCount db sid : ℚ) := by
      exact_mod_cast hover
    have h1 : (1 : ℚ) < (likedCount db sid : ℚ) / (s.target_playlist_length : ℚ) :=
      (one_lt_div ht).mpr hlt
    simp only
    linarith

/-- Witness for C4 at a concrete session with target 2 and three likes:
progress is 150% and the completion flag is set. -/
theorem get_session_progress_formula_witness :
    ∃ p, get_session_progress overshootDB "sess" = some p
      ∧ p.liked_count = likedCount overshootDB "sess"
      ∧ p.target_playlist_length = 2
      ∧ p.progress_percentage = ((likedCount overshootDB "sess" : ℚ) / (2 : ℚ)) * 100
      ∧ (p.is_complete = true ↔ 2 ≤ likedCount overshootDB "sess")
      ∧ (2 < likedCount overshootDB "sess" → 100 < p.progress_percentage) :=
  get_session_progress_formula overshootDB "sess"
    { session_id := "sess", spotify_id := "user-1", target_playlist_length := 2,
      session_status := "ACTIVE", completion_date := none }
    rfl (by decide)

/-- **C10.** For every existing session whose `target_playlist_length` is 0,
`get_session_progress` returns `None` (the `ZeroDivisionError` is swallowed
by the blanket handler), so the `GET /api/session_progress/<session_id>`
endpoint answers 404 `'Session not found'` even though the session exists. -/
theorem get_session_progress_zero_target (db : DB) (sid : String)
    (s : SwipeSession) (hfind : findSession db sid = some s)
    (htarget : s.target_playlist_length = 0) :
    get_session_progress db sid = none
      ∧ api_session_progress db sid
          = (404, ProgressResponse.notFound "Session not found") := by
  have hnone : get_session_progress db sid = none := by
    unfold get_session_progress sessionProgressRow
    rw [hfind]
    simp [htarget]
  refine ⟨hnone, ?_⟩
  unfold api_session_progress
  rw [hnone]

/-- Witness for C10 at a concrete database holding one session whose target
is 0. -/
theorem get_session_progress_zero_target_witness :
    get_session_progress zeroTargetDB "sess" = none
      ∧ api_session_progress zeroTargetDB "sess"
          = (404, ProgressResponse.notFound "Session not found") :=
  get_session_progress_zero_target zeroTargetDB "sess"
    { session_id := "sess", spotify_id := "user-1", target_playlist_length := 0,
      session_status := "ACTIVE", completion_date := none }
    rfl rfl

theorem chunk100_length (l : List String) :
    (chunk100 l).length = (l.length + 99) / 100 := by
  rw [chunk100]
  by_cases h : l = []
  · subst h
    simp
  · have ih := chunk100_length (l.drop 100)
    have hp := List.length_pos.mpr h
    simp only [dif_neg h, List.length_cons, ih, List.length_drop]
    omega
termination_by l.length
decreasing_by
  rw [List.length_drop]
  have := List.length_pos.mpr h
  omega

theorem chunk100_flatten (l : List String) : (chunk100 l).flatten = l := by
  rw [chunk100]
  by_cases h : l = []
  · subst h
    simp
  · have ih := chunk100_flatten (l.drop 100)
    simp only [dif_neg h, List.flatten_cons, ih, List.take_append_drop]
termination_by l.length
decreasing_by
  rw [List.length_drop]
  have := List.length_pos.mpr h
  omega

theorem chunk100_sizes (l : List String) : ∀ b ∈ chunk100 l, b.length ≤ 100 := by
  rw [chunk100]
  by_cases h : l = []
  · subst h
    simp
  · have ih := chunk100_sizes (l.drop 100)
    simp only [dif_neg h, List.mem_cons]
    rintro b (rfl | hb)
    · simpa using List.length_take_le 100 l
    · exact ih b hb
termination_by l.length
decreasing_by
  rw [List.length_drop]
  have := List.length_pos.mpr h
  omega

theorem chunk100_replicate_120 :
    (chunk100 (List.replicate 120 "uri")).map List.length = [100, 20] := by
  rw [chunk100]
  norm_num [List.take_replicate, List.drop_replicate]
  rw [chunk100]
  norm_num [List.take_replicate, List.drop_replicate]
  rw [chunk100]
  norm_num

/-- **C5.** `add_tracks_to_playlist` submits the identifiers in sequential
slices of at most 100 per provider call — exactly `⌈n/100⌉` calls whose
concatenation, in order, is the original list; an empty list succeeds with
zero provider calls; and 120 identifiers yield exactly two calls of sizes
100 and 20. -/
theorem add_tracks_to_playlist_batches (track_uris : List String) :
    ((add_tracks_to_playlist track_uris).providerCalls).length
        = (track_uris.length + 99) / 100
      ∧ (∀ b ∈ (add_tracks_to_playlist track_uris).providerCalls, b.length ≤ 100)
      ∧ ((add_tracks_to_playlist track_uris).providerCalls).flatten = track_uris
      ∧ (add_tracks_to_playlist track_uris).status = 200
      ∧ (track_uris = [] →
          add_tracks_to_playlist track_uris
            = { status := 200, providerCalls := [], added := none })
      ∧ (add_tracks_to_playlist (List.replicate 120 "uri")).providerCalls.map
          List.length = [100, 20] := by
  by_cases h : track_uris = []
  · subst h
    refine ⟨rfl, by simp [add_tracks_to_playlist, chunk100], rfl, rfl, fun _ => rfl, ?_⟩
    rw [show add_tracks_to_playlist (List.replicate 120 "uri")
        = { status := 200, providerCalls := chunk100 (List.replicate 120 "uri"),
            added := some 120 } from by simp [add_tracks_to_playlist]]
    exact chunk100_replicate_120
  · refine ⟨?_, ?_, ?_, ?_, fun habs => absurd habs h, ?_⟩
    · simp only [add_tracks_to_playlist, if_neg h]
      exact chunk100_length track_uris
    · simp only [add_tracks_to_playlist, if_neg h]
      exact chunk100_sizes track_uris
    · simp only [add_tracks_to_playlist, if_neg h]
      exact chunk100_flatten track_uris
    · simp [add_tracks_to_playlist, h]
    · rw [show add_tracks_to_playlist (List.replicate 120 "uri")
          = { status := 200, providerCalls := chunk100 (List.replicate 120 "uri"),
              added := some 120 } from by simp [add_tracks_to_playlist]]
      exact chunk100_replicate_120

/-- **C6.** When the stored expiry lies more than 5 minutes (300 s) after
the current time, `get_fresh_spotify_token` returns the stored access token
unchanged, makes zero provider refresh calls, and leaves every stored user
row (tokens and expiry included) unmodified. -/
theorem get_fresh_spotify_token_valid (users : List UserData) (u : UserData)
    (now exp : Int) (refresh : Except String TokenInfo)
    (hexp : u.token_expires_at = some exp) (hfresh : now + 300 < exp) :
    get_fresh_spotify_token users u now refresh
      = (users, TokenOutcome.token u.access_token, 0) := by
  unfold get_fresh_spotify_token
  have hvalid : tokenStillValid u now = true := by
    unfold tokenStillValid
    rw [hexp]
    simpa using hfresh
  rw [hvalid]
  rfl

/-- Witness for C6 at a user whose token expires at time 10000, queried at
time 0. -/
theorem get_fresh_spotify_token_valid_witness :
    get_fresh_spotify_token [freshUser] freshUser 0
        (Except.error "provider down")
      = ([freshUser], TokenOutcome.token freshUser.access_token, 0) :=
  get_fresh_spotify_token_valid [freshUser] freshUser 0 10000
    (Except.error "provider down") rfl (by norm_num)

/-- **C7.** When the stored token is not valid beyond the 5-minute margin,
`get_fresh_spotify_token` fails exactly when either no refresh token is
stored or the provider refresh call fails; every failure carries the one
generic re-auth message, and the whole observable result is independent of
the provider's own error text (it is never exposed). -/
theorem get_fresh_spotify_token_failure_cases (users : List UserData)
    (u : UserData) (now : Int) (refresh : Except String TokenInfo)
    (hstale : ∀ exp, u.token_expires_at = some exp → exp ≤ now + 300) :
    ((∃ m, (get_fresh_spotify_token users u now refresh).2.1
          = TokenOutcome.authRequired m)
        ↔ (u.refresh_token = none ∨ ∃ e, refresh = Except.error e))
      ∧ (∀ m, (get_fresh_spotify_token users u now refresh).2.1
            = TokenOutcome.authRequired m →
          m = "Authentication required. Please sign in again.")
      ∧ (∀ e₁ e₂, get_fresh_spotify_token users u now (Except.error e₁)
          = get_fresh_spotify_token users u now (Except.error e₂)) := by
  have hstaleb : tokenStillValid u now = false := by
    unfold tokenStillValid
    cases hexp : u.token_expires_at with
    | none => rfl
    | some exp =>
      have := hstale exp hexp
      simpa using this
  unfold get_fresh_spotify_token
  rw [hstaleb]
  cases hrt : u.refresh_token with
  | none =>
    refine ⟨⟨fun _ => Or.inl rfl, fun _ => ⟨_, rfl⟩⟩, ?_, fun e₁ e₂ => rfl⟩
    intro m hm
    simpa using hm.symm
  | some rt =>
    cases hr : refresh with
    | error e =>
      refine ⟨⟨fun _ => Or.inr ⟨e, rfl⟩, fun _ => ⟨_, rfl⟩⟩, ?_, fun e₁ e₂ => rfl⟩
      intro m hm
      simpa using hm.symm
    | ok ti =>
      refine ⟨⟨?_, ?_⟩, ?_, fun e₁ e₂ => rfl⟩
      · rintro ⟨m, hm⟩
        simpa using hm
      · rintro (habs | ⟨e, habs⟩)
        · cases habs
        · cases habs
      · intro m hm
        simpa using hm

/-- Witness for C7 at a user with no stored expiry and no refresh token. -/
theorem get_fresh_spotify_token_failure_cases_witness :
    ((∃ m, (get_fresh_spotify_token [bareUser] bareUser 0
            (Except.error "boom")).2.1 = TokenOutcome.authRequired m)
        ↔ (bareUser.refresh_token = none
            ∨ ∃ e, (Except.error "boom" : Except String TokenInfo)
                = Except.error e))
      ∧ (∀ m, (get_fresh_spotify_token [bareUser] bareUser 0
              (Except.error "boom")).2.1 = TokenOutcome.authRequired m →
          m = "Authentication required. Please sign in again.")
      ∧ (∀ e₁ e₂, get_fresh_spotify_token [bareUser] bareUser 0 (Except.error e₁)
          = get_fresh_spotify_token [bareUser] bareUser 0 (Except.error e₂)) :=
  get_fresh_spotify_token_failure_cases [bareUser] bareUser 0
    (Except.error "boom") (fun exp h => nomatch h)

/-- Witness for C5 at the concrete 120-identifier list. -/
theorem add_tracks_to_playlist_batches_witness :
    ((add_tracks_to_playlist (List.replicate 120 "uri")).providerCalls).length
        = ((List.replicate 120 "uri").length + 99) / 100
      ∧ (∀ b ∈ (add_tracks_to_playlist (List.replicate 120 "uri")).providerCalls,
          b.length ≤ 100)
      ∧ ((add_tracks_to_playlist
            (List.replicate 120 "uri")).providerCalls).flatten
          = List.replicate 120 "uri"
      ∧ (add_tracks_to_playlist (List.replicate 120 "uri")).status = 200
      ∧ (List.replicate 120 "uri" = ([] : List String) →
          add_tracks_to_playlist (List.replicate 120 "uri")
            = { status := 200, providerCalls := [], added := none })
      ∧ (add_tracks_to_playlist (List.replicate 120 "uri")).providerCalls.map
          List.length = [100, 20] :=
  add_tracks_to_playlist_batches (List.replicate 120 "uri")

/-- Counterexample to C8 as stated: in the ~65% branch (`r = 0 < 0.65`) the
value 200 is a possible `random.randint(0, 200)` result, and the offset then
equals 200, which is not `< 200` — the low band is `[0, 200]`, not
`[0, 200)` (and likewise 400 is possible in the high band). -/
theorem get_song_offset_counterexample :
    ((0 : ℚ) < 65 / 100)
      ∧ randintRange 0 200 200
      ∧ get_song_offset 0 200 300 = 200
      ∧ ¬ get_song_offset 0 200 300 < 200
      ∧ randintRange 200 400 400
      ∧ get_song_offset (7 / 10) 100 400 = 400
      ∧ ¬ get_song_offset (7 / 10) 100 400 < 400 := by
  refine ⟨by norm_num, ?_, ?_, ?_, ?_, ?_, ?_⟩
  · unfold randintRange
    omega
  · unfold get_song_offset
    norm_num
  · unfold get_song_offset
    norm_num
  · unfold randintRange
    omega
  · unfold get_song_offset
    norm_num
  · unfold get_song_offset
    norm_num

/-- **C8 (amended).** For every genre search in `get_song`, when the uniform
draw is below 0.65 the offset is a `randint(0, 200)` value, hence in the
inclusive band `[0, 200]`; otherwise it is a `randint(200, 400)` value,
hence in the inclusive band `[200, 400]`. -/
theorem get_song_offset_bands (r : ℚ) (lowPick highPick : Nat)
    (hlow : randintRange 0 200 lowPick)
    (hhigh : randintRange 200 400 highPick) :
    (r < 65 / 100 → get_song_offset r lowPick highPick ≤ 200)
      ∧ (¬ r < 65 / 100 →
          200 ≤ get_song_offset r lowPick highPick
            ∧ get_song_offset r lowPick highPick ≤ 400) := by
  unfold get_song_offset
  constructor
  · intro h
    rw [if_pos h]
    exact hlow.2
  · intro h
    rw [if_neg h]
    exact ⟨hhigh.1, hhigh.2⟩

/-- Witness for the amended C8 at concrete draws in each band. -/
theorem get_song_offset_bands_witness :
    ((0 : ℚ) < 65 / 100 → get_song_offset 0 7 300 ≤ 200)
      ∧ (¬ (0 : ℚ) < 65 / 100 →
          200 ≤ get_song_offset 0 7 300 ∧ get_song_offset 0 7 300 ≤ 400) :=
  get_song_offset_bands 0 7 300 (by unfold randintRange; omega)
    (by unfold randintRange; omega)

/-- Counterexample to C9 as stated: a concrete `POST /api/swipe` body
omitting `session_id` (the other required fields present) is answered with
HTTP 500, not 400 — the `KeyError` falls into the blanket `except` handler
of the route. -/
theorem api_swipe_missing_field_counterexample :
    (api_swipe emptyDB "f-song" "f-swipe" 0
        { session_id := none,
          song_data := some { spotify_id := some "sp-1", track := bareTrack },
          direction := some "RIGHT" }).2 = 500
      ∧ (api_swipe emptyDB "f-song" "f-swipe" 0
          { session_id := none,
            song_data := some { spotify_id := some "sp-1", track := bareTrack },
            direction := some "RIGHT" }).2 ≠ 400 := by
  exact ⟨rfl, by decide⟩

/-- **C9 (amended).** A `POST /api/swipe` whose body omits `session_id`,
`song_data` or `direction` is answered with HTTP 500 (the `KeyError` is
swallowed by the blanket handler), leaving the database untouched, while a
`POST /api/swipe_sessions` whose `spotify_id` is absent (or falsy) is the
route that answers HTTP 400. -/
theorem api_missing_field_statuses (db : DB) (f₁ f₂ fs : String) (now : Int)
    (body : SwipeReqBody) (target : Option Nat)
    (hmiss : body.session_id = none ∨ body.song_data = none
      ∨ body.direction = none) :
    api_swipe db f₁ f₂ now body = (db, 500)
      ∧ api_swipe_sessions_post db fs now none target = (db, 400)
      ∧ ∀ s, strTruthy s = false →
          api_swipe_sessions_post db fs now s target = (db, 400) := by
  obtain ⟨bs, bd, bdir⟩ := body
  refine ⟨?_, rfl, fun s hs => ?_⟩
  · cases bs <;> cases bd <;> cases bdir <;>
      first
        | rfl
        | simp at hmiss
  · unfold api_swipe_sessions_post
    simp [hs]

/-- Witness for the amended C9 at a concrete body missing `direction` and a
concrete empty-string `spotify_id`. -/
theorem api_missing_field_statuses_witness :
    api_swipe emptyDB "f-song" "f-swipe" 0
        { session_id := some "sess",
          song_data := some { spotify_id := some "sp-1", track := bareTrack },
          direction := none }
      = (emptyDB, 500)
      ∧ api_swipe_sessions_post emptyDB "s-1" 0 none (some 20) = (emptyDB, 400)
      ∧ ∀ s, strTruthy s = false →
          api_swipe_sessions_post emptyDB "s-1" 0 s (some 20) = (emptyDB, 400) :=
  api_missing_field_statuses emptyDB "f-song" "f-swipe" "s-1" 0
    { session_id := some "sess",
      song_data := some { spotify_id := some "sp-1", track := bareTrack },
      direction := none }
    (some 20) (Or.inr (Or.inr rfl))

end TuneSwipe
